import Mathlib

/-!
# SCD41 CO2 sensor driver (`src/src/scd41.c`)

A shallow embedding of the SCD41 protocol driver: the CRC-8 routine, the
single-shot measurement read, the ASC disable sequence and the forced
recalibration procedure, together with theorems about them.

Conventions of the embedding:

* `uint8_t` / `uint16_t` values are natural numbers; every store into a
  `uint8_t` is followed by `% 256`, every store into a `uint16_t` by `% 65536`.
* `int16_t` values are integers in `[-32768, 32767]`.
* The I2C layer (`twomes_i2c_write_port_1`, `twomes_i2c_read_port_1`) is not part
  of the driver; it is represented by a simulated bus (`Bus`) that records every
  operation and answers them from a script.
* Output parameters (`uint16_t *buffer`, `int16_t *offset`) are passed in and
  returned.
* `vTaskDelay` and `ESP_LOGx` calls have no effect on the values computed and
  are left out.
-/

namespace SCD41

/-! ## Constants -/

/-- Opcode `SCD41_CMD_SERIALNUM` (0x3682). -/
def SCD41_CMD_SERIALNUM : List Nat := [0x36, 0x82]
/-- Opcode `SCD41_CMD_SET_ASC_EN` (0x2416). -/
def SCD41_CMD_SET_ASC_EN : List Nat := [0x24, 0x16]
/-- Opcode `SCD41_CMD_GET_ASC_EN` (0x2313). -/
def SCD41_CMD_GET_ASC_EN : List Nat := [0x23, 0x13]
/-- Opcode `SCD41_CMD_READMEASURE` (0xec05). -/
def SCD41_CMD_READMEASURE : List Nat := [0xec, 0x05]
/-- Opcode `SCD41_CMD_SINGLESHOT` (0x219d). -/
def SCD41_CMD_SINGLESHOT : List Nat := [0x21, 0x9d]
/-- Opcode `SCD41_CMD_FORCE_RECALIBRATION` (0x362f). -/
def SCD41_CMD_FORCE_RECALIBRATION : List Nat := [0x36, 0x2f]
/-- Recalibration target `SCD41_CO2_RECALIBRATION_VAL`, 415 ppm = 0x019F. -/
def SCD41_CO2_RECALIBRATION_VAL : List Nat := [0x01, 0x9F]

/-- The CRC polynomial `CRC8_POLYNOMIAL`. -/
def CRC8_POLYNOMIAL : Nat := 0x31
/-- The CRC start value `CRC8_INIT`. -/
def CRC8_INIT : Nat := 0xFF

/-! ## CRC-8 -/

/-- One pass of the body of the inner `for (crc_bit = 8; crc_bit > 0; --crc_bit)`
loop of `scd41_crc8`; the result is stored in the `uint8_t crc`. -/
def crc8_bit_step (crc : Nat) : Nat :=
  if crc &&& 0x80 ≠ 0 then ((crc <<< 1) ^^^ CRC8_POLYNOMIAL) % 256
  else (crc <<< 1) % 256

/-- The inner loop of `scd41_crc8`, run for `crc_bit` remaining passes. -/
def crc8_bit_loop : Nat → Nat → Nat
  | 0, crc => crc
  | crc_bit + 1, crc => crc8_bit_loop crc_bit (crc8_bit_step crc)

/-- The body of the outer loop of `scd41_crc8` for one input byte:
`crc ^= data[current_byte]` followed by the eight bit passes. -/
def crc8_byte_step (crc byte : Nat) : Nat :=
  crc8_bit_loop 8 ((crc ^^^ byte) % 256)

/-- The outer loop of `scd41_crc8` from index `current_byte`, with `n` bytes
still to process (`n = count - current_byte`). A byte outside `data` reads
as `0`. -/
def crc8_byte_loop (data : List Nat) : Nat → Nat → Nat → Nat
  | 0, _, crc => crc
  | n + 1, current_byte, crc =>
    crc8_byte_loop data n (current_byte + 1) (crc8_byte_step crc (data.getD current_byte 0))

/-- The function `scd41_crc8(data, count)`: `data` is the memory starting at the
pointer, `count` the number of bytes covered. -/
def scd41_crc8 (data : List Nat) (count : Nat) : Nat :=
  crc8_byte_loop data count 0 CRC8_INIT

/-! ## Result codes and the simulated bus -/

/-- Modelled from the spec: the result codes exposed to callers (the header
`esp_err.h` that declares them is not among the sources): success, transport
failure, invalid response and invalid checksum. -/
inductive esp_err_t
  | ESP_OK
  | ESP_FAIL
  | ESP_ERR_INVALID_RESPONSE
  | ESP_ERR_INVALID_CRC
  deriving DecidableEq, Repr

open esp_err_t

/-- An operation issued on the I2C bus. -/
inductive BusOp
  | write (address : Nat) (bytes : List Nat) (sendStop : Bool)
  | read (address : Nat) (len : Nat)
  deriving DecidableEq, Repr

/-- Modelled from the spec: the transport adapter (the I2C layer is not among
the sources). A simulated bus: `tx n` is the outcome of the `n`-th write still to
come, `rx n` is the outcome of the `n`-th read still to come together with the
bytes found in the destination buffer after that read, and `log` lists the
operations issued so far, oldest first. -/
structure Bus where
  tx : Nat → esp_err_t
  rx : Nat → esp_err_t × List Nat
  log : List BusOp

/-- Flag `I2C_SEND_STOP`: release the bus after the write. -/
def I2C_SEND_STOP : Bool := true
/-- Flag `I2C_SEND_NO_STOP`: keep the bus for the read that follows. -/
def I2C_SEND_NO_STOP : Bool := false

/-- Modelled from the spec: the primitive `write(address, bytes, hold_bus)` of
the transport adapter, `twomes_i2c_write_port_1(address, buffer, len, sendStop)`.
The first `len` bytes of `buffer` are sent. -/
def twomes_i2c_write_port_1 (bus : Bus) (address : Nat) (buffer : List Nat) (len : Nat)
    (sendStop : Bool) : esp_err_t × Bus :=
  (bus.tx 0,
   { tx := fun n => bus.tx (n + 1),
     rx := bus.rx,
     log := bus.log ++ [BusOp.write address (buffer.take len) sendStop] })

/-- The contents of a `len`-byte `uint8_t` buffer holding the answer `resp`:
each element is stored as a byte, and a position the answer does not reach reads
as `0`. -/
def readBuffer (resp : List Nat) (len : Nat) : List Nat :=
  (List.range len).map (fun j => resp.getD j 0 % 256)

/-- Modelled from the spec: the primitive `read(address, length)` of the
transport adapter, `twomes_i2c_read_port_1(address, buffer, len)`. It yields the
outcome and the contents of the `len`-byte destination buffer after the call. -/
def twomes_i2c_read_port_1 (bus : Bus) (address : Nat) (len : Nat) :
    esp_err_t × List Nat × Bus :=
  ((bus.rx 0).1, readBuffer (bus.rx 0).2 len,
   { tx := bus.tx,
     rx := fun n => bus.rx (n + 1),
     log := bus.log ++ [BusOp.read address len] })

/-! ## Driver operations -/

/-- The function `co2_get_serial(address)`: the outcomes of both bus operations
are discarded and the function returns `0`. -/
def co2_get_serial (bus : Bus) (address : Nat) : Nat × Bus :=
  let cmd := SCD41_CMD_SERIALNUM
  let bus := (twomes_i2c_write_port_1 bus address cmd 2 I2C_SEND_NO_STOP).2
  let r := twomes_i2c_read_port_1 bus address 9
  (0, r.2.2)

/-- The function `co2_disable_asc(address)`; returns `response_buffer[1]`. -/
def co2_disable_asc (bus : Bus) (address : Nat) : Nat × Bus :=
  let x := [0, 0]
  let disable_asc_cmd := SCD41_CMD_SET_ASC_EN ++ [0, 0, scd41_crc8 x 2]
  let bus := (twomes_i2c_write_port_1 bus address disable_asc_cmd 5 I2C_SEND_STOP).2
  let check_asc_cmd := SCD41_CMD_GET_ASC_EN
  let bus := (twomes_i2c_write_port_1 bus address check_asc_cmd 2 I2C_SEND_NO_STOP).2
  let r := twomes_i2c_read_port_1 bus address 2
  let response_buffer := r.2.1
  (response_buffer.getD 1 0, r.2.2)

/-- The function `co2_read(address, buffer)`. The caller's `buffer` is passed in
and its final contents are returned next to the result code. The outcomes of the
three bus operations are discarded, as in the source. -/
def co2_read (bus : Bus) (address : Nat) (buffer : List Nat) : esp_err_t × List Nat × Bus :=
  let singleshot_cmd := SCD41_CMD_SINGLESHOT
  let bus := (twomes_i2c_write_port_1 bus address singleshot_cmd 2 I2C_SEND_STOP).2
  let read_measurement_cmd := SCD41_CMD_READMEASURE
  let bus := (twomes_i2c_write_port_1 bus address read_measurement_cmd 2 I2C_SEND_NO_STOP).2
  let r := twomes_i2c_read_port_1 bus address 9
  let read_buffer := r.2.1
  let bus := r.2.2
  let crc1 := scd41_crc8 (read_buffer.drop 0) 2
  let crc2 := scd41_crc8 (read_buffer.drop 3) 2
  let crc3 := scd41_crc8 (read_buffer.drop 6) 2
  if crc1 = read_buffer.getD 2 0 then
    let buffer := buffer.set 0 (((read_buffer.getD 0 0 <<< 8) ||| read_buffer.getD 1 0) % 65536)
    if crc2 = read_buffer.getD 5 0 then
      let buffer := buffer.set 1 (((read_buffer.getD 3 0 <<< 8) ||| read_buffer.getD 4 0) % 65536)
      if crc3 = read_buffer.getD 8 0 then
        let buffer := buffer.set 2 (((read_buffer.getD 6 0 <<< 8) ||| read_buffer.getD 7 0) % 65536)
        (ESP_OK, buffer, bus)
      else (ESP_ERR_INVALID_CRC, buffer, bus)
    else (ESP_ERR_INVALID_CRC, buffer, bus)
  else (ESP_ERR_INVALID_CRC, buffer, bus)

/-- The warm-up loop `for (int i = 0; i < 36; i++)` of `co2_force_recalibration`
with `n` passes to go. `some err` is the early `return err` from inside the loop,
`none` means the loop ran to its end. `uint16_t values[3]` is a fresh local whose
contents are never read. -/
def warmup_loop (address : Nat) : Nat → Bus → Option esp_err_t × Bus
  | 0, bus => (none, bus)
  | n + 1, bus =>
    let values := [0, 0, 0]
    let r := co2_read bus address values
    let err := r.1
    if err ≠ ESP_OK then (some ESP_ERR_INVALID_RESPONSE, r.2.2)
    else warmup_loop address n r.2.2

/-- The cast `(int16_t)` of a 16-bit value. -/
def int16_cast (x : Int) : Int :=
  if x % 65536 < 32768 then x % 65536 else x % 65536 - 65536

/-- The function `co2_force_recalibration(address, offset)`. The value at
`*offset` is passed in and its final value is returned next to the result
code. -/
def co2_force_recalibration (bus : Bus) (address : Nat) (offset : Int) :
    esp_err_t × Int × Bus :=
  match warmup_loop address 36 bus with
  | (some err, bus) => (err, offset, bus)
  | (none, bus) =>
    let x := SCD41_CO2_RECALIBRATION_VAL
    let force_recalibrate_cmd :=
      SCD41_CMD_FORCE_RECALIBRATION ++ SCD41_CO2_RECALIBRATION_VAL ++ [scd41_crc8 x 2]
    let bus := (twomes_i2c_write_port_1 bus address force_recalibrate_cmd 5 I2C_SEND_STOP).2
    let r := twomes_i2c_read_port_1 bus address 3
    let response_buffer := r.2.1
    let bus := r.2.2
    let crc := scd41_crc8 response_buffer 2
    if crc ≠ response_buffer.getD 2 0 then (ESP_ERR_INVALID_CRC, offset, bus)
    else
      let response : Nat :=
        (((int16_cast (response_buffer.getD 0 0)).toNat <<< 8) ||| response_buffer.getD 1 0) % 65536
      if response = 0xffff then (ESP_ERR_INVALID_RESPONSE, offset, bus)
      else
        let response : Int := ((response : Int) - 0x8000) % 65536
        (ESP_OK, int16_cast response, bus)

/-! ## Vocabulary of the statements -/

/-- Every element of the list is a byte. -/
def isBytes (l : List Nat) : Prop := ∀ x ∈ l, x < 256

instance (l : List Nat) : Decidable (isBytes l) := by
  unfold isBytes; infer_instance

/-- The checksum-protected word at offset `i` of a receive buffer passes the
check made by the driver: the CRC of its two bytes equals the byte after them. -/
def wordValid (buf : List Nat) (i : Nat) : Prop :=
  scd41_crc8 (buf.drop i) 2 = buf.getD (i + 2) 0

instance (buf : List Nat) (i : Nat) : Decidable (wordValid buf i) := by
  unfold wordValid; infer_instance

/-- The answer `resp` to a 9-byte measurement read passes all three checks of
`co2_read`. -/
def measurementValid (resp : List Nat) : Prop :=
  wordValid (readBuffer resp 9) 0 ∧ wordValid (readBuffer resp 9) 3 ∧
    wordValid (readBuffer resp 9) 6

instance (resp : List Nat) : Decidable (measurementValid resp) := by
  unfold measurementValid; infer_instance

/-- The three bus operations of one `co2_read`. -/
def measureOps (address : Nat) : List BusOp :=
  [BusOp.write address [0x21, 0x9d] true, BusOp.write address [0xec, 0x05] false,
   BusOp.read address 9]

/-- The bus operations of `n` consecutive calls of `co2_read`. -/
def warmupOps (address : Nat) : Nat → List BusOp
  | 0 => []
  | n + 1 => measureOps address ++ warmupOps address n

/-- The bus after `n` complete calls of `co2_read`. -/
def busAfterReads (bus : Bus) (address n : Nat) : Bus :=
  { tx := fun m => bus.tx (m + 2 * n),
    rx := fun m => bus.rx (m + n),
    log := bus.log ++ warmupOps address n }

/-- The two bus operations that follow a completed warm-up in
`co2_force_recalibration`: the 5-byte command write and the 3-byte read-back. -/
def recalOps (address : Nat) : List BusOp :=
  [BusOp.write address [0x36, 0x2f, 0x01, 0x9F, scd41_crc8 [0x01, 0x9F] 2] true,
   BusOp.read address 3]

/-- The bus after a `co2_force_recalibration` that got past its warm-up. -/
def busAfterRecal (bus : Bus) (address : Nat) : Bus :=
  { tx := fun m => bus.tx (m + 73),
    rx := fun m => bus.rx (m + 37),
    log := bus.log ++ (warmupOps address 36 ++ recalOps address) }

/-- The frame with bit `p % 8` of byte `p / 8` inverted. -/
def flipBit (frame : List Nat) (p : Nat) : List Nat :=
  frame.set (p / 8) (frame.getD (p / 8) 0 ^^^ (1 <<< (p % 8)))

/-- The pass that undoes `crc8_bit_step` on bytes; it serves to show that the
CRC register update loses no information. -/
def crc8_bit_unstep (crc : Nat) : Nat :=
  if crc % 2 = 1 then ((crc ^^^ CRC8_POLYNOMIAL) >>> 1) ||| 0x80 else crc >>> 1

/-- The operation is a write whose frame starts with the force-recalibration
opcode `0x36 0x2f`. -/
def isForceRecalWrite : BusOp → Bool
  | BusOp.write _ (0x36 :: 0x2f :: _) _ => true
  | _ => false

/-- The operation is a read of `len` bytes. -/
def isReadOf (len : Nat) : BusOp → Bool
  | BusOp.read _ n => n == len
  | _ => false

/-- The operation is not a write, or a write of a bare 2-byte opcode, or a
write of 5 bytes whose last byte is the CRC of the two bytes before it. -/
def frameShapeOk : BusOp → Prop
  | BusOp.write _ bytes _ =>
    bytes.length = 2 ∨ (bytes.length = 5 ∧ bytes.getD 4 0 = scd41_crc8 (bytes.drop 2) 2)
  | BusOp.read _ _ => True

/-! ## Sample transports -/

/-- A measurement answer whose three checksums are right: CO2 `0x01f4`, raw
temperature `0x6667`, raw humidity `0x5eb9`. -/
def sampleFrame : List Nat := [0x01, 0xf4, 0x33, 0x66, 0x67, 0xa2, 0x5e, 0xb9, 0x3c]

/-- The answer `sampleFrame` with the checksum byte of its second word changed
from `0xa2` to `0xa3`. -/
def corruptFrame : List Nat := [0x01, 0xf4, 0x33, 0x66, 0x67, 0xa3, 0x5e, 0xb9, 0x3c]

/-- A simulated bus on which every operation succeeds; the first `n` reads
answer `sampleFrame`, every later read answers `last`. -/
def sampleBus (n : Nat) (last : List Nat) : Bus :=
  { tx := fun _ => ESP_OK,
    rx := fun i => if i < n then (ESP_OK, sampleFrame) else (ESP_OK, last),
    log := [] }

/-- A simulated bus on which the first write fails, every later operation
succeeds, and every read answers `sampleFrame`. -/
def nackBus : Bus :=
  { tx := fun i => if i = 0 then ESP_FAIL else ESP_OK,
    rx := fun _ => (ESP_OK, sampleFrame),
    log := [] }

end SCD41

namespace SCD41

open esp_err_t

/-! ## Lemmas on the CRC -/

theorem crc8_bit_step_lt (crc : Nat) : crc8_bit_step crc < 256 := by
  unfold crc8_bit_step
  split <;> exact Nat.mod_lt _ (by norm_num)

theorem crc8_bit_loop_lt (n crc : Nat) (h : crc < 256) : crc8_bit_loop n crc < 256 := by
  induction n generalizing crc with
  | zero => simpa [crc8_bit_loop] using h
  | succ n ih => exact ih _ (crc8_bit_step_lt crc)

theorem crc8_byte_step_lt (crc byte : Nat) : crc8_byte_step crc byte < 256 :=
  crc8_bit_loop_lt 8 _ (Nat.mod_lt _ (by norm_num))

theorem scd41_crc8_two (a b : Nat) (rest : List Nat) :
    scd41_crc8 (a :: b :: rest) 2 = crc8_byte_step (crc8_byte_step CRC8_INIT a) b := rfl

theorem scd41_crc8_two_lt (a b : Nat) (rest : List Nat) : scd41_crc8 (a :: b :: rest) 2 < 256 := by
  rw [scd41_crc8_two]; exact crc8_byte_step_lt _ _

/-- The CRC reads only the first `count` bytes after the pointer. -/
theorem scd41_crc8_two_rest (a b : Nat) (rest : List Nat) :
    scd41_crc8 (a :: b :: rest) 2 = scd41_crc8 [a, b] 2 := rfl

theorem crc8_bit_unstep_step : ∀ c, c < 256 → crc8_bit_unstep (crc8_bit_step c) = c := by
  decide!

theorem flip_byte_ne : ∀ b, b < 256 → ∀ i, i < 8 → b ^^^ (1 <<< i) ≠ b := by
  decide!

theorem flip_byte_lt : ∀ b, b < 256 → ∀ i, i < 8 → b ^^^ (1 <<< i) < 256 := by
  decide!

theorem crc8_bit_step_inj (c d : Nat) (hc : c < 256) (hd : d < 256)
    (h : crc8_bit_step c = crc8_bit_step d) : c = d := by
  rw [← crc8_bit_unstep_step c hc, ← crc8_bit_unstep_step d hd, h]

theorem crc8_bit_loop_inj (n c d : Nat) (hc : c < 256) (hd : d < 256)
    (h : crc8_bit_loop n c = crc8_bit_loop n d) : c = d := by
  induction n generalizing c d with
  | zero => simpa [crc8_bit_loop] using h
  | succ n ih =>
    exact crc8_bit_step_inj c d hc hd
      (ih _ _ (crc8_bit_step_lt c) (crc8_bit_step_lt d) h)

theorem xor_byte_lt (a b : Nat) (ha : a < 256) (hb : b < 256) : a ^^^ b < 256 :=
  Nat.xor_lt_two_pow (n := 8) ha hb

/-- The register update for one byte is injective in the register. -/
theorem crc8_byte_step_inj_left (c d byte : Nat) (hc : c < 256) (hd : d < 256)
    (hb : byte < 256) (h : crc8_byte_step c byte = crc8_byte_step d byte) : c = d := by
  unfold crc8_byte_step at h
  have h1 := crc8_bit_loop_inj 8 _ _ (Nat.mod_lt _ (by norm_num)) (Nat.mod_lt _ (by norm_num)) h
  rw [Nat.mod_eq_of_lt (xor_byte_lt c byte hc hb),
    Nat.mod_eq_of_lt (xor_byte_lt d byte hd hb)] at h1
  exact Nat.xor_left_injective h1

/-- The register update for one byte is injective in the byte. -/
theorem crc8_byte_step_inj_right (c x y : Nat) (hc : c < 256) (hx : x < 256)
    (hy : y < 256) (h : crc8_byte_step c x = crc8_byte_step c y) : x = y := by
  unfold crc8_byte_step at h
  have h1 := crc8_bit_loop_inj 8 _ _ (Nat.mod_lt _ (by norm_num)) (Nat.mod_lt _ (by norm_num)) h
  rw [Nat.mod_eq_of_lt (xor_byte_lt c x hc hx),
    Nat.mod_eq_of_lt (xor_byte_lt c y hc hy)] at h1
  exact Nat.xor_right_injective h1

/-- Inverting one bit of a checksum-protected word or of its checksum byte makes
the check fail. -/
theorem single_bit_flip_detected (b0 b1 p : Nat) (h0 : b0 < 256) (h1 : b1 < 256)
    (hp : p < 24) :
    (flipBit [b0, b1, scd41_crc8 [b0, b1] 2] p).getD 2 0 ≠
      scd41_crc8 (flipBit [b0, b1, scd41_crc8 [b0, b1] 2] p) 2 := by
  have hq : p / 8 < 3 := by omega
  have hr : p % 8 < 8 := Nat.mod_lt _ (by norm_num)
  unfold flipBit
  generalize p / 8 = q at hq
  generalize p % 8 = r at hr
  have hinit : CRC8_INIT < 256 := by decide
  interval_cases q
  · simp only [List.getD_cons_zero, List.set_cons_zero, List.getD_cons_succ,
      scd41_crc8_two]
    intro e
    have e1 := crc8_byte_step_inj_left _ _ b1 (crc8_byte_step_lt _ _)
      (crc8_byte_step_lt _ _) h1 e
    have e2 := crc8_byte_step_inj_right _ _ _ hinit h0 (flip_byte_lt b0 h0 r hr) e1
    exact flip_byte_ne b0 h0 r hr e2.symm
  · simp only [List.getD_cons_zero, List.set_cons_zero, List.getD_cons_succ,
      List.set_cons_succ, scd41_crc8_two]
    intro e
    have e1 := crc8_byte_step_inj_right _ _ _ (crc8_byte_step_lt _ _) h1
      (flip_byte_lt b1 h1 r hr) e
    exact flip_byte_ne b1 h1 r hr e1.symm
  · simp only [List.getD_cons_zero, List.set_cons_zero, List.getD_cons_succ,
      List.set_cons_succ, scd41_crc8_two]
    exact flip_byte_ne _ (crc8_byte_step_lt _ _) r hr

/-! ## Lemmas on the bus and on `co2_read` -/

theorem readBuffer_nine (resp : List Nat) :
    readBuffer resp 9 =
      [resp.getD 0 0 % 256, resp.getD 1 0 % 256, resp.getD 2 0 % 256,
       resp.getD 3 0 % 256, resp.getD 4 0 % 256, resp.getD 5 0 % 256,
       resp.getD 6 0 % 256, resp.getD 7 0 % 256, resp.getD 8 0 % 256] := rfl

theorem readBuffer_three (resp : List Nat) :
    readBuffer resp 3 = [resp.getD 0 0 % 256, resp.getD 1 0 % 256, resp.getD 2 0 % 256] := rfl

theorem word_eq (a b : Nat) (ha : a < 256) (hb : b < 256) :
    ((a <<< 8) ||| b) % 65536 = a * 256 + b := by
  rw [Nat.shiftLeft_eq, Nat.mul_comm, ← Nat.mul_add_lt_is_or (i := 8) (by simpa using hb)]
  norm_num
  omega

/-- Whatever the outcomes of the bus operations and whatever the result, one
`co2_read` issues its three bus operations. -/
theorem co2_read_bus (bus : Bus) (address : Nat) (buffer : List Nat) :
    (co2_read bus address buffer).2.2 = busAfterReads bus address 1 := by
  have key : (twomes_i2c_read_port_1
      (twomes_i2c_write_port_1
        (twomes_i2c_write_port_1 bus address SCD41_CMD_SINGLESHOT 2 I2C_SEND_STOP).2
        address SCD41_CMD_READMEASURE 2 I2C_SEND_NO_STOP).2 address 9).2.2
      = busAfterReads bus address 1 := by
    simp [twomes_i2c_read_port_1, twomes_i2c_write_port_1, busAfterReads, warmupOps,
      measureOps, SCD41_CMD_SINGLESHOT, SCD41_CMD_READMEASURE, I2C_SEND_STOP,
      I2C_SEND_NO_STOP]
  unfold co2_read
  simp only []
  split_ifs <;> exact key

theorem co2_read_result (bus : Bus) (address : Nat) (buffer : List Nat) :
    (co2_read bus address buffer).1 = ESP_OK ∨
      (co2_read bus address buffer).1 = ESP_ERR_INVALID_CRC := by
  unfold co2_read
  simp only []
  split_ifs <;> simp

theorem co2_read_ok_iff (bus : Bus) (address : Nat) (buffer : List Nat) :
    (co2_read bus address buffer).1 = ESP_OK ↔ measurementValid (bus.rx 0).2 := by
  unfold co2_read measurementValid wordValid
  simp only [twomes_i2c_read_port_1, twomes_i2c_write_port_1]
  split_ifs with h1 h2 h3 <;> simp_all

/-- The receive buffer of `co2_read` when the answer is a list of nine bytes. -/
theorem readBuffer_bytes9 (a0 a1 c1 b0 b1 c2 d0 d1 c3 : Nat)
    (hb : isBytes [a0, a1, c1, b0, b1, c2, d0, d1, c3]) :
    readBuffer [a0, a1, c1, b0, b1, c2, d0, d1, c3] 9 = [a0, a1, c1, b0, b1, c2, d0, d1, c3] := by
  simp only [isBytes, List.mem_cons, List.mem_singleton, forall_eq_or_imp, forall_eq,
    List.not_mem_nil, IsEmpty.forall_iff, implies_true, and_true] at hb
  obtain ⟨h0, h1, h2, h3, h4, h5, h6, h7, h8⟩ := hb
  simp [readBuffer_nine, Nat.mod_eq_of_lt, *]

/-- The result of `co2_read` and the final contents of the caller's buffer, by
cases on the three checks, for an answer of nine bytes. -/
theorem co2_read_cases (bus : Bus) (address x0 x1 x2 : Nat)
    (a0 a1 c1 b0 b1 c2 d0 d1 c3 : Nat)
    (hb : isBytes [a0, a1, c1, b0, b1, c2, d0, d1, c3])
    (hresp : (bus.rx 0).2 = [a0, a1, c1, b0, b1, c2, d0, d1, c3]) :
    ((co2_read bus address [x0, x1, x2]).1, (co2_read bus address [x0, x1, x2]).2.1) =
      if c1 = scd41_crc8 [a0, a1] 2 then
        if c2 = scd41_crc8 [b0, b1] 2 then
          if c3 = scd41_crc8 [d0, d1] 2 then
            (ESP_OK, [a0 * 256 + a1, b0 * 256 + b1, d0 * 256 + d1])
          else (ESP_ERR_INVALID_CRC, [a0 * 256 + a1, b0 * 256 + b1, x2])
        else (ESP_ERR_INVALID_CRC, [a0 * 256 + a1, x1, x2])
      else (ESP_ERR_INVALID_CRC, [x0, x1, x2]) := by
  have hbuf := readBuffer_bytes9 a0 a1 c1 b0 b1 c2 d0 d1 c3 hb
  simp only [isBytes, List.mem_cons, List.mem_singleton, forall_eq_or_imp, forall_eq,
    List.not_mem_nil, IsEmpty.forall_iff, implies_true, and_true] at hb
  obtain ⟨h0, h1, h2, h3, h4, h5, h6, h7, h8⟩ := hb
  unfold co2_read
  simp only [twomes_i2c_read_port_1, twomes_i2c_write_port_1, hresp, hbuf]
  simp only [List.drop_succ_cons, List.drop_zero,
    scd41_crc8_two_rest, List.getD_cons_zero, List.getD_cons_succ, List.set_cons_zero,
    List.set_cons_succ, word_eq a0 a1 h0 h1, word_eq b0 b1 h3 h4, word_eq d0 d1 h6 h7]
  by_cases e1 : c1 = scd41_crc8 [a0, a1] 2
  · by_cases e2 : c2 = scd41_crc8 [b0, b1] 2
    · by_cases e3 : c3 = scd41_crc8 [d0, d1] 2
      · simp [e1, e2, e3]
      · simp [e1, e2, e3, eq_comm]
    · simp [e1, e2, eq_comm]
  · simp [e1, eq_comm]

/-! ## Lemmas on the warm-up loop -/

theorem busAfterReads_zero (bus : Bus) (address : Nat) : busAfterReads bus address 0 = bus := by
  simp [busAfterReads, warmupOps]

theorem busAfterReads_succ (bus : Bus) (address n : Nat) :
    busAfterReads (busAfterReads bus address 1) address n = busAfterReads bus address (n + 1) := by
  simp only [busAfterReads, warmupOps, List.append_nil, List.append_assoc, Bus.mk.injEq,
    and_true]
  refine ⟨?_, ?_⟩ <;> funext m <;> congr 1

theorem warmup_loop_succ (address n : Nat) (bus : Bus) :
    warmup_loop address (n + 1) bus =
      if (co2_read bus address [0, 0, 0]).1 ≠ ESP_OK then
        (some ESP_ERR_INVALID_RESPONSE, busAfterReads bus address 1)
      else warmup_loop address n (busAfterReads bus address 1) := by
  rw [warmup_loop]
  simp only [co2_read_bus]

/-- When the next `n` measurement answers all pass the checks, the loop runs to
its end after `n` calls of `co2_read`. -/
theorem warmup_loop_all_valid (address : Nat) (n : Nat) (bus : Bus)
    (h : ∀ i, i < n → measurementValid (bus.rx i).2) :
    warmup_loop address n bus = (none, busAfterReads bus address n) := by
  induction n generalizing bus with
  | zero => simp [warmup_loop, busAfterReads_zero]
  | succ n ih =>
    have h0 : (co2_read bus address [0, 0, 0]).1 = ESP_OK :=
      (co2_read_ok_iff bus address _).2 (h 0 (Nat.succ_pos n))
    rw [warmup_loop_succ, if_neg (by simp [h0]), ih, busAfterReads_succ]
    intro i hi
    have := h (i + 1) (Nat.succ_lt_succ hi)
    simpa [busAfterReads] using this

/-- When the first `k` measurement answers pass the checks and the next one does
not, the loop returns from inside pass `k + 1`. -/
theorem warmup_loop_fail_at (address : Nat) (n k : Nat) (bus : Bus) (hk : k < n)
    (h : ∀ i, i < k → measurementValid (bus.rx i).2)
    (hbad : ¬ measurementValid (bus.rx k).2) :
    warmup_loop address n bus =
      (some ESP_ERR_INVALID_RESPONSE, busAfterReads bus address (k + 1)) := by
  induction n generalizing bus k with
  | zero => omega
  | succ n ih =>
    rw [warmup_loop_succ]
    cases k with
    | zero =>
      have h0 : (co2_read bus address [0, 0, 0]).1 ≠ ESP_OK := fun e =>
        hbad ((co2_read_ok_iff bus address _).1 e)
      rw [if_pos h0]
    | succ k =>
      have h0 : (co2_read bus address [0, 0, 0]).1 = ESP_OK :=
        (co2_read_ok_iff bus address _).2 (h 0 (Nat.succ_pos k))
      rw [if_neg (by simp [h0]), ih k _ (by omega), busAfterReads_succ]
      · intro i hi
        have := h (i + 1) (Nat.succ_lt_succ hi)
        simpa [busAfterReads] using this
      · simpa [busAfterReads] using hbad

/-- In every case the loop leaves the bus as after some number `k ≤ n` of
complete calls of `co2_read`. -/
theorem warmup_loop_bus (address : Nat) (n : Nat) (bus : Bus) :
    ∃ k, k ≤ n ∧ (warmup_loop address n bus).2 = busAfterReads bus address k := by
  induction n generalizing bus with
  | zero => exact ⟨0, le_refl _, by simp [warmup_loop, busAfterReads_zero]⟩
  | succ n ih =>
    rw [warmup_loop_succ]
    split_ifs with h0
    · exact ⟨1, by omega, rfl⟩
    · obtain ⟨k, hk, e⟩ := ih (busAfterReads bus address 1)
      exact ⟨k + 1, by omega, by rw [e, busAfterReads_succ]⟩

/-! ## Lemmas on `co2_force_recalibration` -/

theorem int16_cast_byte (b : Nat) (hb : b < 256) : (int16_cast (b : Int)).toNat = b := by
  unfold int16_cast
  split_ifs <;> omega

theorem int16_cast_bias (w : Nat) (hw : w < 65536) :
    int16_cast (((w : Int) - 0x8000) % 65536) = (w : Int) - 32768 := by
  unfold int16_cast
  split_ifs <;> omega

theorem readBuffer_bytes3 (hi lo c : Nat) (hb : isBytes [hi, lo, c]) :
    readBuffer [hi, lo, c] 3 = [hi, lo, c] := by
  simp only [isBytes, List.mem_cons, List.mem_singleton, forall_eq_or_imp, forall_eq,
    List.not_mem_nil, IsEmpty.forall_iff, implies_true, and_true] at hb
  obtain ⟨h0, h1, h2⟩ := hb
  simp [readBuffer_three, Nat.mod_eq_of_lt, *]

/-- A warm-up pass that fails ends the whole procedure with
`ESP_ERR_INVALID_RESPONSE`, the offset untouched, after `k + 1` measurement
reads and nothing else. -/
theorem co2_force_recalibration_fail_at (bus : Bus) (address : Nat) (offset : Int) (k : Nat)
    (hk : k < 36) (h : ∀ i, i < k → measurementValid (bus.rx i).2)
    (hbad : ¬ measurementValid (bus.rx k).2) :
    co2_force_recalibration bus address offset =
      (ESP_ERR_INVALID_RESPONSE, offset, busAfterReads bus address (k + 1)) := by
  unfold co2_force_recalibration
  rw [warmup_loop_fail_at address 36 k bus hk h hbad]

/-- After a warm-up whose 36 answers all pass the checks, the result, the final
offset and the final bus, by cases on the three bytes read back. -/
theorem co2_force_recalibration_cases (bus : Bus) (address : Nat) (offset : Int)
    (hi lo c : Nat) (h : ∀ i, i < 36 → measurementValid (bus.rx i).2)
    (hb : isBytes [hi, lo, c]) (hresp : (bus.rx 36).2 = [hi, lo, c]) :
    co2_force_recalibration bus address offset =
      if c ≠ scd41_crc8 [hi, lo] 2 then
        (ESP_ERR_INVALID_CRC, offset, busAfterRecal bus address)
      else if hi * 256 + lo = 0xffff then
        (ESP_ERR_INVALID_RESPONSE, offset, busAfterRecal bus address)
      else (ESP_OK, ((hi * 256 + lo : Nat) : Int) - 32768, busAfterRecal bus address) := by
  have hbuf := readBuffer_bytes3 hi lo c hb
  simp only [isBytes, List.mem_cons, List.mem_singleton, forall_eq_or_imp, forall_eq,
    List.not_mem_nil, IsEmpty.forall_iff, implies_true, and_true] at hb
  obtain ⟨h0, h1, h2⟩ := hb
  have hrx : ((busAfterReads bus address 36).rx 0).2 = [hi, lo, c] := by
    simpa [busAfterReads] using hresp
  have hbus : (twomes_i2c_read_port_1 (twomes_i2c_write_port_1 (busAfterReads bus address 36)
      address (SCD41_CMD_FORCE_RECALIBRATION ++ SCD41_CO2_RECALIBRATION_VAL ++
        [scd41_crc8 SCD41_CO2_RECALIBRATION_VAL 2]) 5 I2C_SEND_STOP).2 address 3).2.2 =
      busAfterRecal bus address := by
    simp [twomes_i2c_read_port_1, twomes_i2c_write_port_1, busAfterReads, busAfterRecal,
      recalOps, SCD41_CMD_FORCE_RECALIBRATION, SCD41_CO2_RECALIBRATION_VAL, I2C_SEND_STOP]
  have hdata : (twomes_i2c_read_port_1 (twomes_i2c_write_port_1 (busAfterReads bus address 36)
      address (SCD41_CMD_FORCE_RECALIBRATION ++ SCD41_CO2_RECALIBRATION_VAL ++
        [scd41_crc8 SCD41_CO2_RECALIBRATION_VAL 2]) 5 I2C_SEND_STOP).2 address 3).2.1 =
      [hi, lo, c] := by
    simp only [twomes_i2c_read_port_1, twomes_i2c_write_port_1, hrx, hbuf]
  have hw : hi * 256 + lo < 65536 := by omega
  unfold co2_force_recalibration
  rw [warmup_loop_all_valid address 36 bus h]
  simp only [hbus, hdata, scd41_crc8_two_rest, List.getD_cons_zero, List.getD_cons_succ,
    int16_cast_byte hi h0, word_eq hi lo h0 h1, int16_cast_bias _ hw]
  by_cases e1 : c = scd41_crc8 [hi, lo] 2
  · by_cases e2 : hi * 256 + lo = 0xffff
    · simp [e1, e2]
    · simp [e1, e2]
  · simp [e1, eq_comm]

/-! ## Lemmas on the operations logged on the bus -/

theorem measureOps_shape (address : Nat) (op : BusOp) (h : op ∈ measureOps address) :
    frameShapeOk op ∧ isForceRecalWrite op = false ∧ isReadOf 3 op = false := by
  simp only [measureOps, List.mem_cons, List.mem_singleton, List.not_mem_nil, or_false] at h
  rcases h with rfl | rfl | rfl <;> simp [frameShapeOk, isForceRecalWrite, isReadOf]

theorem warmupOps_shape (address n : Nat) (op : BusOp) (h : op ∈ warmupOps address n) :
    frameShapeOk op ∧ isForceRecalWrite op = false ∧ isReadOf 3 op = false := by
  induction n with
  | zero => simp [warmupOps] at h
  | succ n ih =>
    rw [warmupOps, List.mem_append] at h
    rcases h with h | h
    · exact measureOps_shape address op h
    · exact ih h

theorem warmupOps_reads (address n : Nat) :
    (warmupOps address n).countP (isReadOf 9) = n := by
  induction n with
  | zero => simp [warmupOps]
  | succ n ih =>
    rw [warmupOps, List.countP_append, ih]
    simp [measureOps, List.countP_cons, isReadOf]
    omega

theorem recalOps_shape (address : Nat) (op : BusOp) (h : op ∈ recalOps address) :
    frameShapeOk op := by
  simp only [recalOps, List.mem_cons, List.mem_singleton, List.not_mem_nil, or_false] at h
  rcases h with rfl | rfl <;> simp [frameShapeOk, scd41_crc8_two_rest]

theorem co2_disable_asc_log (bus : Bus) (address : Nat) :
    (co2_disable_asc bus address).2.log =
      bus.log ++ [BusOp.write address [0x24, 0x16, 0x00, 0x00, scd41_crc8 [0x00, 0x00] 2] true,
        BusOp.write address [0x23, 0x13] false, BusOp.read address 2] := by
  simp [co2_disable_asc, twomes_i2c_read_port_1, twomes_i2c_write_port_1,
    SCD41_CMD_SET_ASC_EN, SCD41_CMD_GET_ASC_EN, I2C_SEND_STOP, I2C_SEND_NO_STOP]

theorem co2_get_serial_log (bus : Bus) (address : Nat) :
    (co2_get_serial bus address).2.log =
      bus.log ++ [BusOp.write address [0x36, 0x82] false, BusOp.read address 9] := by
  simp [co2_get_serial, twomes_i2c_read_port_1, twomes_i2c_write_port_1,
    SCD41_CMD_SERIALNUM, I2C_SEND_NO_STOP]

/-- The log after `co2_force_recalibration`: some number of measurement reads,
followed or not by the command write and the read-back. -/
theorem co2_force_recalibration_log (bus : Bus) (address : Nat) (offset : Int) :
    ∃ k, k ≤ 36 ∧
      ((co2_force_recalibration bus address offset).2.2.log = bus.log ++ warmupOps address k ∨
       (co2_force_recalibration bus address offset).2.2.log =
          bus.log ++ (warmupOps address k ++ recalOps address)) := by
  obtain ⟨k, hk, e⟩ := warmup_loop_bus address 36 bus
  refine ⟨k, hk, ?_⟩
  unfold co2_force_recalibration
  rcases hw : warmup_loop address 36 bus with ⟨o, b⟩
  rw [hw] at e
  simp only at e
  subst e
  cases o with
  | some err => left; rfl
  | none =>
    right
    simp only [twomes_i2c_read_port_1, twomes_i2c_write_port_1]
    split_ifs <;>
      simp [busAfterReads, recalOps, SCD41_CMD_FORCE_RECALIBRATION,
        SCD41_CO2_RECALIBRATION_VAL, I2C_SEND_STOP]

/-- After a warm-up whose 36 answers all pass the checks, the bus is left after
the command write and the read-back, whatever was read back. -/
theorem co2_force_recalibration_bus (bus : Bus) (address : Nat) (offset : Int)
    (h : ∀ i, i < 36 → measurementValid (bus.rx i).2) :
    (co2_force_recalibration bus address offset).2.2 = busAfterRecal bus address := by
  have hbus : (twomes_i2c_read_port_1 (twomes_i2c_write_port_1 (busAfterReads bus address 36)
      address (SCD41_CMD_FORCE_RECALIBRATION ++ SCD41_CO2_RECALIBRATION_VAL ++
        [scd41_crc8 SCD41_CO2_RECALIBRATION_VAL 2]) 5 I2C_SEND_STOP).2 address 3).2.2 =
      busAfterRecal bus address := by
    simp [twomes_i2c_read_port_1, twomes_i2c_write_port_1, busAfterReads, busAfterRecal,
      recalOps, SCD41_CMD_FORCE_RECALIBRATION, SCD41_CO2_RECALIBRATION_VAL, I2C_SEND_STOP]
  unfold co2_force_recalibration
  rw [warmup_loop_all_valid address 36 bus h]
  simp only [hbus]
  split_ifs <;> rfl

/-- The result and the output buffer of `co2_read` depend on the bus only
through the bytes found in the receive buffer. -/
theorem co2_read_depends_on_bytes (bus bus2 : Bus) (address : Nat) (buffer : List Nat)
    (h : (bus2.rx 0).2 = (bus.rx 0).2) :
    (co2_read bus2 address buffer).1 = (co2_read bus address buffer).1 ∧
      (co2_read bus2 address buffer).2.1 = (co2_read bus address buffer).2.1 := by
  unfold co2_read
  simp only [twomes_i2c_read_port_1, twomes_i2c_write_port_1, h]
  split_ifs <;> exact ⟨rfl, rfl⟩

theorem sampleBus_valid (n : Nat) (last : List Nat) (i : Nat) (hi : i < n) :
    measurementValid ((sampleBus n last).rx i).2 := by
  simp only [sampleBus, hi, if_true]
  decide

theorem sampleBus_last (n : Nat) (last : List Nat) : ((sampleBus n last).rx n).2 = last := by
  simp [sampleBus]

/-! ## The claims -/

/-- Claim C1: when the nine bytes read carry three right checksums, `co2_read`
returns `ESP_OK` and the output buffer holds the three big-endian words in the
order CO2, temperature, humidity. -/
theorem co2_read_valid_triplet (bus : Bus) (address x0 x1 x2 : Nat)
    (a0 a1 c1 b0 b1 c2 d0 d1 c3 : Nat)
    (hb : isBytes [a0, a1, c1, b0, b1, c2, d0, d1, c3])
    (hresp : (bus.rx 0).2 = [a0, a1, c1, b0, b1, c2, d0, d1, c3])
    (h1 : c1 = scd41_crc8 [a0, a1] 2) (h2 : c2 = scd41_crc8 [b0, b1] 2)
    (h3 : c3 = scd41_crc8 [d0, d1] 2) :
    (co2_read bus address [x0, x1, x2]).1 = ESP_OK ∧
      (co2_read bus address [x0, x1, x2]).2.1 =
        [a0 * 256 + a1, b0 * 256 + b1, d0 * 256 + d1] := by
  have h := co2_read_cases bus address x0 x1 x2 a0 a1 c1 b0 b1 c2 d0 d1 c3 hb hresp
  rw [if_pos h1, if_pos h2, if_pos h3] at h
  exact ⟨congrArg Prod.fst h, congrArg Prod.snd h⟩

/-- Witness of C1: the answer `01 f4 33 66 67 a2 5e b9 3c` decodes to the words
`0x01f4`, `0x6667`, `0x5eb9`. -/
theorem co2_read_valid_triplet_witness :
    (co2_read (sampleBus 1 []) 0x62 [7, 7, 7]).1 = ESP_OK ∧
      (co2_read (sampleBus 1 []) 0x62 [7, 7, 7]).2.1 = [0x01f4, 0x6667, 0x5eb9] :=
  co2_read_valid_triplet (sampleBus 1 []) 0x62 7 7 7 0x01 0xf4 0x33 0x66 0x67 0xa2 0x5e 0xb9
    0x3c (by decide) rfl (by decide) (by decide) (by decide)

/-- Counterexample to C2 as stated: with a right first checksum and a wrong second
one, `co2_read` returns `ESP_ERR_INVALID_CRC` after it has overwritten entry 0 of
the caller's buffer. -/
theorem co2_read_partial_triplet :
    isBytes corruptFrame ∧ ((sampleBus 0 corruptFrame).rx 0).2 = corruptFrame ∧
      corruptFrame.getD 5 0 ≠ scd41_crc8 [0x66, 0x67] 2 ∧
      (co2_read (sampleBus 0 corruptFrame) 0x62 [7, 7, 7]).1 = ESP_ERR_INVALID_CRC ∧
      (co2_read (sampleBus 0 corruptFrame) 0x62 [7, 7, 7]).2.1 = [0x01f4, 7, 7] ∧
      (co2_read (sampleBus 0 corruptFrame) 0x62 [7, 7, 7]).2.1 ≠ [7, 7, 7] := by
  decide

/-- Claim C2, amended: when at least one of the three checksum bytes is wrong,
`co2_read` returns `ESP_ERR_INVALID_CRC`; the buffer entries of the words before
the first wrong one hold those words, the entry of the first wrong word and the
entries after it are unchanged. -/
theorem co2_read_rejected_triplet (bus : Bus) (address x0 x1 x2 : Nat)
    (a0 a1 c1 b0 b1 c2 d0 d1 c3 : Nat)
    (hb : isBytes [a0, a1, c1, b0, b1, c2, d0, d1, c3])
    (hresp : (bus.rx 0).2 = [a0, a1, c1, b0, b1, c2, d0, d1, c3])
    (hbad : c1 ≠ scd41_crc8 [a0, a1] 2 ∨ c2 ≠ scd41_crc8 [b0, b1] 2 ∨
      c3 ≠ scd41_crc8 [d0, d1] 2) :
    (co2_read bus address [x0, x1, x2]).1 = ESP_ERR_INVALID_CRC ∧
      (co2_read bus address [x0, x1, x2]).2.1 =
        (if c1 ≠ scd41_crc8 [a0, a1] 2 then [x0, x1, x2]
         else if c2 ≠ scd41_crc8 [b0, b1] 2 then [a0 * 256 + a1, x1, x2]
         else [a0 * 256 + a1, b0 * 256 + b1, x2]) := by
  have h := co2_read_cases bus address x0 x1 x2 a0 a1 c1 b0 b1 c2 d0 d1 c3 hb hresp
  by_cases e1 : c1 = scd41_crc8 [a0, a1] 2
  · by_cases e2 : c2 = scd41_crc8 [b0, b1] 2
    · have e3 : c3 ≠ scd41_crc8 [d0, d1] 2 := by
        rcases hbad with h' | h' | h'
        · exact absurd e1 h'
        · exact absurd e2 h'
        · exact h'
      rw [if_pos e1, if_pos e2, if_neg e3] at h
      rw [if_neg (not_not.mpr e1), if_neg (not_not.mpr e2)]
      exact ⟨congrArg Prod.fst h, congrArg Prod.snd h⟩
    · rw [if_pos e1, if_neg e2] at h
      rw [if_neg (not_not.mpr e1), if_pos e2]
      exact ⟨congrArg Prod.fst h, congrArg Prod.snd h⟩
  · rw [if_neg e1] at h
    rw [if_pos e1]
    exact ⟨congrArg Prod.fst h, congrArg Prod.snd h⟩

/-- Witness of the amended C2 at `corruptFrame`, whose second checksum is
wrong. -/
theorem co2_read_rejected_triplet_witness :
    (co2_read (sampleBus 0 corruptFrame) 0x62 [7, 7, 7]).1 = ESP_ERR_INVALID_CRC ∧
      (co2_read (sampleBus 0 corruptFrame) 0x62 [7, 7, 7]).2.1 =
        (if 0x33 ≠ scd41_crc8 [0x01, 0xf4] 2 then [7, 7, 7]
         else if 0xa3 ≠ scd41_crc8 [0x66, 0x67] 2 then [0x01 * 256 + 0xf4, 7, 7]
         else [0x01 * 256 + 0xf4, 0x66 * 256 + 0x67, 7]) :=
  co2_read_rejected_triplet (sampleBus 0 corruptFrame) 0x62 7 7 7 0x01 0xf4 0x33 0x66 0x67
    0xa3 0x5e 0xb9 0x3c (by decide) rfl (Or.inr (Or.inl (by decide)))

/-- Claim C3: after a warm-up whose 36 measurement reads all pass the checks,
a read-back `[hi, lo, crc]` with a right checksum and a word `w = hi*256 + lo`
other than `0xFFFF` makes `co2_force_recalibration` return `ESP_OK` and store
the `int16_t` reading of `(w - 0x8000) mod 2^16`, which is `w - 32768`; `0x8032`
gives 50 and `0x8000` gives 0. -/
theorem co2_force_recalibration_offset (bus : Bus) (address : Nat) (offset : Int)
    (hi lo c : Nat) (h : ∀ i, i < 36 → measurementValid (bus.rx i).2)
    (hb : isBytes [hi, lo, c]) (hresp : (bus.rx 36).2 = [hi, lo, c])
    (hc : c = scd41_crc8 [hi, lo] 2) (hw : hi * 256 + lo ≠ 0xffff) :
    (co2_force_recalibration bus address offset).1 = ESP_OK ∧
      (co2_force_recalibration bus address offset).2.1 =
        int16_cast ((((hi * 256 + lo : Nat) : Int) - 0x8000) % 65536) ∧
      (co2_force_recalibration bus address offset).2.1 = ((hi * 256 + lo : Nat) : Int) - 32768 ∧
      (hi * 256 + lo = 0x8032 → (co2_force_recalibration bus address offset).2.1 = 50) ∧
      (hi * 256 + lo = 0x8000 → (co2_force_recalibration bus address offset).2.1 = 0) := by
  have hlt : hi * 256 + lo < 65536 := by
    have h0 := hb hi (by simp)
    have h1 := hb lo (by simp)
    omega
  rw [co2_force_recalibration_cases bus address offset hi lo c h hb hresp,
    if_neg (not_not.mpr hc), if_neg hw, int16_cast_bias _ hlt]
  refine ⟨rfl, rfl, rfl, ?_, ?_⟩
  · intro e
    simp only [e]
    norm_num
  · intro e
    simp only [e]
    norm_num

/-- Witness of C3: the read-backs `80 32 05` and `80 00 a2` give the offsets 50
and 0. -/
theorem co2_force_recalibration_offset_witness :
    (co2_force_recalibration (sampleBus 36 [0x80, 0x32, 0x05]) 0x62 (-1)).2.1 = 50 ∧
      (co2_force_recalibration (sampleBus 36 [0x80, 0x00, 0xa2]) 0x62 (-1)).2.1 = 0 :=
  ⟨(co2_force_recalibration_offset (sampleBus 36 [0x80, 0x32, 0x05]) 0x62 (-1) 0x80 0x32 0x05
      (sampleBus_valid 36 _) (by decide) (sampleBus_last 36 _) (by decide)
      (by decide)).2.2.2.1 (by decide),
   (co2_force_recalibration_offset (sampleBus 36 [0x80, 0x00, 0xa2]) 0x62 (-1) 0x80 0x00 0xa2
      (sampleBus_valid 36 _) (by decide) (sampleBus_last 36 _) (by decide)
      (by decide)).2.2.2.2 (by decide)⟩

/-- Claim C4: when warm-up reads `1..k-1` pass the checks and read `k` does not
(`1 ≤ k ≤ 36`), `co2_force_recalibration` returns a result other than `ESP_OK`
after exactly `k` measurement reads, without the force-recalibration write,
without a read-back, and with the offset unchanged. -/
theorem co2_force_recalibration_warmup_abort (bus : Bus) (address : Nat) (offset : Int)
    (k : Nat) (hk1 : 1 ≤ k) (hk : k ≤ 36)
    (h : ∀ i, i < k - 1 → measurementValid (bus.rx i).2)
    (hbad : ¬ measurementValid (bus.rx (k - 1)).2) :
    (co2_force_recalibration bus address offset).1 ≠ ESP_OK ∧
      (co2_force_recalibration bus address offset).1 = ESP_ERR_INVALID_RESPONSE ∧
      (co2_force_recalibration bus address offset).2.1 = offset ∧
      (co2_force_recalibration bus address offset).2.2.log = bus.log ++ warmupOps address k ∧
      (warmupOps address k).countP (isReadOf 9) = k ∧
      (warmupOps address k).length = 3 * k ∧
      (∀ op, op ∈ warmupOps address k → isForceRecalWrite op = false ∧ isReadOf 3 op = false) := by
  have e := co2_force_recalibration_fail_at bus address offset (k - 1) (by omega) h hbad
  have hk' : k - 1 + 1 = k := by omega
  rw [hk'] at e
  rw [e]
  refine ⟨by simp, rfl, rfl, rfl, warmupOps_reads address k, ?_, ?_⟩
  · clear e h hbad hk hk1 hk'
    induction k with
    | zero => rfl
    | succ n ih => simp [warmupOps, measureOps, ih]; omega
  · intro op hop
    exact (warmupOps_shape address k op hop).2

/-- Witness of C4 with `k = 3`: two right answers, then `corruptFrame`. -/
theorem co2_force_recalibration_warmup_abort_witness :
    (co2_force_recalibration (sampleBus 2 corruptFrame) 0x62 (-1)).1 = ESP_ERR_INVALID_RESPONSE ∧
      (co2_force_recalibration (sampleBus 2 corruptFrame) 0x62 (-1)).2.1 = -1 ∧
      (co2_force_recalibration (sampleBus 2 corruptFrame) 0x62 (-1)).2.2.log =
        (sampleBus 2 corruptFrame).log ++ warmupOps 0x62 3 :=
  have w := co2_force_recalibration_warmup_abort (sampleBus 2 corruptFrame) 0x62 (-1) 3
    (by decide) (by decide) (sampleBus_valid 2 _) (by decide)
  ⟨w.2.1, w.2.2.1, w.2.2.2.1⟩

/-- Claim C5: after a warm-up whose 36 measurement reads all pass the checks, a
read-back `[hi, lo, c]` with a wrong checksum gives `ESP_ERR_INVALID_CRC`
(whatever `hi` and `lo` are), and one with a right checksum and the word `0xFFFF`
gives `ESP_ERR_INVALID_RESPONSE`; the offset is unchanged in both cases. -/
theorem co2_force_recalibration_readback_failure (bus : Bus) (address : Nat) (offset : Int)
    (hi lo c : Nat) (h : ∀ i, i < 36 → measurementValid (bus.rx i).2)
    (hb : isBytes [hi, lo, c]) (hresp : (bus.rx 36).2 = [hi, lo, c]) :
    (c ≠ scd41_crc8 [hi, lo] 2 →
      (co2_force_recalibration bus address offset).1 = ESP_ERR_INVALID_CRC ∧
        (co2_force_recalibration bus address offset).2.1 = offset) ∧
    (c = scd41_crc8 [hi, lo] 2 → hi * 256 + lo = 0xffff →
      (co2_force_recalibration bus address offset).1 = ESP_ERR_INVALID_RESPONSE ∧
        (co2_force_recalibration bus address offset).2.1 = offset) := by
  rw [co2_force_recalibration_cases bus address offset hi lo c h hb hresp]
  constructor
  · intro hc
    rw [if_pos hc]
    exact ⟨rfl, rfl⟩
  · intro hc hw
    rw [if_neg (not_not.mpr hc), if_pos hw]
    exact ⟨rfl, rfl⟩

/-- Witness of C5: the read-back `ff ff 00` has a wrong checksum, the read-back
`ff ff ac` is the failure word with its right checksum. -/
theorem co2_force_recalibration_readback_failure_witness :
    ((co2_force_recalibration (sampleBus 36 [0xff, 0xff, 0x00]) 0x62 (-1)).1 =
        ESP_ERR_INVALID_CRC ∧
      (co2_force_recalibration (sampleBus 36 [0xff, 0xff, 0x00]) 0x62 (-1)).2.1 = -1) ∧
    ((co2_force_recalibration (sampleBus 36 [0xff, 0xff, 0xac]) 0x62 (-1)).1 =
        ESP_ERR_INVALID_RESPONSE ∧
      (co2_force_recalibration (sampleBus 36 [0xff, 0xff, 0xac]) 0x62 (-1)).2.1 = -1) :=
  ⟨(co2_force_recalibration_readback_failure (sampleBus 36 [0xff, 0xff, 0x00]) 0x62 (-1)
      0xff 0xff 0x00 (sampleBus_valid 36 _) (by decide) (sampleBus_last 36 _)).1 (by decide),
   (co2_force_recalibration_readback_failure (sampleBus 36 [0xff, 0xff, 0xac]) 0x62 (-1)
      0xff 0xff 0xac (sampleBus_valid 36 _) (by decide) (sampleBus_last 36 _)).2 (by decide)
      (by decide)⟩

/-- Claim C6: `scd41_crc8` over the two bytes `[0xBE, 0xEF]` with `count = 2`
returns `0x92`, with polynomial `0x31` and start value `0xFF`. -/
theorem scd41_crc8_known_answer :
    scd41_crc8 [0xBE, 0xEF] 2 = 0x92 ∧ CRC8_POLYNOMIAL = 0x31 ∧ CRC8_INIT = 0xFF := by
  decide

/-- Claim C7: `co2_disable_asc` writes `24 16 00 00 crc(00 00)`, and
`co2_force_recalibration` writes `36 2f 01 9f crc(01 9f)` after a warm-up that
passed; the CRC recomputed over bytes 2..3 of either frame is its byte 4; and
every frame written by a driver operation is a bare 2-byte opcode or such a
5-byte frame. -/
theorem payload_frames_checksummed :
    (∀ (bus : Bus) (address : Nat), (co2_disable_asc bus address).2.log =
      bus.log ++ [BusOp.write address [0x24, 0x16, 0x00, 0x00, scd41_crc8 [0x00, 0x00] 2] true,
        BusOp.write address [0x23, 0x13] false, BusOp.read address 2]) ∧
    (∀ (bus : Bus) (address : Nat) (offset : Int),
      (∀ i, i < 36 → measurementValid (bus.rx i).2) →
      (co2_force_recalibration bus address offset).2.2.log =
        bus.log ++ (warmupOps address 36 ++
          [BusOp.write address [0x36, 0x2F, 0x01, 0x9F, scd41_crc8 [0x01, 0x9F] 2] true,
           BusOp.read address 3])) ∧
    scd41_crc8 (List.drop 2 [0x24, 0x16, 0x00, 0x00, scd41_crc8 [0x00, 0x00] 2]) 2 =
      List.getD [0x24, 0x16, 0x00, 0x00, scd41_crc8 [0x00, 0x00] 2] 4 0 ∧
    scd41_crc8 (List.drop 2 [0x36, 0x2F, 0x01, 0x9F, scd41_crc8 [0x01, 0x9F] 2]) 2 =
      List.getD [0x36, 0x2F, 0x01, 0x9F, scd41_crc8 [0x01, 0x9F] 2] 4 0 ∧
    (∀ (bus : Bus) (address : Nat) (op : BusOp),
      op ∈ (co2_disable_asc bus address).2.log → op ∈ bus.log ∨ frameShapeOk op) ∧
    (∀ (bus : Bus) (address : Nat) (offset : Int) (op : BusOp),
      op ∈ (co2_force_recalibration bus address offset).2.2.log →
        op ∈ bus.log ∨ frameShapeOk op) ∧
    (∀ (bus : Bus) (address : Nat) (buffer : List Nat) (op : BusOp),
      op ∈ (co2_read bus address buffer).2.2.log → op ∈ bus.log ∨ frameShapeOk op) ∧
    (∀ (bus : Bus) (address : Nat) (op : BusOp),
      op ∈ (co2_get_serial bus address).2.log → op ∈ bus.log ∨ frameShapeOk op) := by
  refine ⟨co2_disable_asc_log, ?_, by decide, by decide, ?_, ?_, ?_, ?_⟩
  · intro bus address offset h
    rw [co2_force_recalibration_bus bus address offset h]
    rfl
  · intro bus address op hop
    rw [co2_disable_asc_log, List.mem_append] at hop
    rcases hop with hop | hop
    · exact Or.inl hop
    · right
      simp only [List.mem_cons, List.mem_singleton, List.not_mem_nil, or_false] at hop
      rcases hop with rfl | rfl | rfl <;> simp [frameShapeOk, scd41_crc8_two_rest]
  · intro bus address offset op hop
    obtain ⟨k, _, e | e⟩ := co2_force_recalibration_log bus address offset
    · rw [e, List.mem_append] at hop
      rcases hop with hop | hop
      · exact Or.inl hop
      · exact Or.inr (warmupOps_shape address k op hop).1
    · rw [e, List.mem_append, List.mem_append] at hop
      rcases hop with hop | hop | hop
      · exact Or.inl hop
      · exact Or.inr (warmupOps_shape address k op hop).1
      · exact Or.inr (recalOps_shape address op hop)
  · intro bus address buffer op hop
    rw [co2_read_bus] at hop
    simp only [busAfterReads, List.mem_append] at hop
    rcases hop with hop | hop
    · exact Or.inl hop
    · exact Or.inr (warmupOps_shape address 1 op hop).1
  · intro bus address op hop
    rw [co2_get_serial_log, List.mem_append] at hop
    rcases hop with hop | hop
    · exact Or.inl hop
    · right
      simp only [List.mem_cons, List.mem_singleton, List.not_mem_nil, or_false] at hop
      rcases hop with rfl | rfl <;> simp [frameShapeOk]

/-- Witness of C7: on a bus whose 36 warm-up answers are right, the log of
`co2_force_recalibration` ends with the 5-byte command frame and the
read-back. -/
theorem payload_frames_checksummed_witness :
    (co2_force_recalibration (sampleBus 36 [0x80, 0x32, 0x05]) 0x62 0).2.2.log =
      (sampleBus 36 [0x80, 0x32, 0x05]).log ++ (warmupOps 0x62 36 ++
        [BusOp.write 0x62 [0x36, 0x2F, 0x01, 0x9F, scd41_crc8 [0x01, 0x9F] 2] true,
         BusOp.read 0x62 3]) :=
  payload_frames_checksummed.2.1 (sampleBus 36 [0x80, 0x32, 0x05]) 0x62 0
    (sampleBus_valid 36 _)

/-- Counterexample to C8 as stated: on a bus whose first write fails, `co2_read`
still issues all three bus operations, returns `ESP_OK` and fills the output
buffer. -/
theorem co2_read_after_failed_write :
    nackBus.tx 0 = ESP_FAIL ∧
      (co2_read nackBus 0x62 [7, 7, 7]).1 = ESP_OK ∧
      (co2_read nackBus 0x62 [7, 7, 7]).2.1 = [0x01f4, 0x6667, 0x5eb9] ∧
      (co2_read nackBus 0x62 [7, 7, 7]).2.2.log =
        [BusOp.write 0x62 [0x21, 0x9d] true, BusOp.write 0x62 [0xec, 0x05] false,
         BusOp.read 0x62 9] := by
  decide

/-- Claim C8, amended: `co2_read` does not look at the outcome of its bus
operations. On every bus it issues the single-shot write, the read-measurement
write and the 9-byte read in this order; it returns `ESP_OK` or
`ESP_ERR_INVALID_CRC` and never a transport failure; and its result and output
buffer are those obtained on any other bus that leaves the same bytes in the
receive buffer. -/
theorem co2_read_ignores_bus_outcome (bus : Bus) (address : Nat) (buffer : List Nat) :
    (co2_read bus address buffer).2.2.log = bus.log ++ measureOps address ∧
      ((co2_read bus address buffer).1 = ESP_OK ∨
        (co2_read bus address buffer).1 = ESP_ERR_INVALID_CRC) ∧
      (co2_read bus address buffer).1 ≠ ESP_FAIL ∧
      (∀ bus2 : Bus, (bus2.rx 0).2 = (bus.rx 0).2 →
        (co2_read bus2 address buffer).1 = (co2_read bus address buffer).1 ∧
          (co2_read bus2 address buffer).2.1 = (co2_read bus address buffer).2.1) := by
  refine ⟨?_, co2_read_result bus address buffer, ?_, ?_⟩
  · rw [co2_read_bus]
    simp [busAfterReads, warmupOps]
  · rcases co2_read_result bus address buffer with e | e <;> simp [e]
  · intro bus2 h2
    exact co2_read_depends_on_bytes bus bus2 address buffer h2

/-- Witness of the amended C8: the bus with a failed first write gives the result
and buffer of the bus without failures. -/
theorem co2_read_ignores_bus_outcome_witness :
    (co2_read (sampleBus 1 []) 0x62 [7, 7, 7]).1 = (co2_read nackBus 0x62 [7, 7, 7]).1 ∧
      (co2_read (sampleBus 1 []) 0x62 [7, 7, 7]).2.1 =
        (co2_read nackBus 0x62 [7, 7, 7]).2.1 :=
  (co2_read_ignores_bus_outcome nackBus 0x62 [7, 7, 7]).2.2.2 (sampleBus 1 []) rfl

/-- Counterexample to C9 as stated: a procedure stopped by a wrong warm-up read
and a procedure stopped by the read-back word `0xFFFF` return the same code. -/
theorem co2_force_recalibration_codes_coincide :
    ¬ measurementValid ((sampleBus 0 corruptFrame).rx 0).2 ∧
      ((sampleBus 36 [0xff, 0xff, 0xac]).rx 36).2 = [0xff, 0xff, scd41_crc8 [0xff, 0xff] 2] ∧
      (co2_force_recalibration (sampleBus 0 corruptFrame) 0x62 0).1 =
        (co2_force_recalibration (sampleBus 36 [0xff, 0xff, 0xac]) 0x62 0).1 := by
  refine ⟨by decide, by decide, ?_⟩
  rw [co2_force_recalibration_fail_at (sampleBus 0 corruptFrame) 0x62 0 0 (by decide)
      (fun i hi => absurd hi (Nat.not_lt_zero i)) (by decide),
    co2_force_recalibration_cases (sampleBus 36 [0xff, 0xff, 0xac]) 0x62 0 0xff 0xff 0xac
      (sampleBus_valid 36 _) (by decide) (sampleBus_last 36 _)]
  decide

/-- Claim C9, amended: the code returned when warm-up read `k + 1` is wrong and
the code returned when the read-back word is `0xFFFF` with a right checksum are
the same, `ESP_ERR_INVALID_RESPONSE`; both differ from `ESP_OK` and from
`ESP_ERR_INVALID_CRC`. -/
theorem co2_force_recalibration_failure_code (busA busB : Bus) (address : Nat)
    (offsetA offsetB : Int) (k : Nat) (hk : k < 36)
    (hA : ∀ i, i < k → measurementValid (busA.rx i).2)
    (hbadA : ¬ measurementValid (busA.rx k).2)
    (hB : ∀ i, i < 36 → measurementValid (busB.rx i).2)
    (hrespB : (busB.rx 36).2 = [0xff, 0xff, scd41_crc8 [0xff, 0xff] 2]) :
    (co2_force_recalibration busA address offsetA).1 = ESP_ERR_INVALID_RESPONSE ∧
      (co2_force_recalibration busB address offsetB).1 = ESP_ERR_INVALID_RESPONSE ∧
      (co2_force_recalibration busA address offsetA).1 =
        (co2_force_recalibration busB address offsetB).1 ∧
      ESP_ERR_INVALID_RESPONSE ≠ ESP_OK ∧ ESP_ERR_INVALID_RESPONSE ≠ ESP_ERR_INVALID_CRC := by
  have eA := co2_force_recalibration_fail_at busA address offsetA k hk hA hbadA
  have eB := co2_force_recalibration_cases busB address offsetB 0xff 0xff
    (scd41_crc8 [0xff, 0xff] 2) hB (by decide) hrespB
  rw [if_neg (by decide), if_pos (by decide)] at eB
  rw [eA, eB]
  exact ⟨rfl, rfl, rfl, by decide, by decide⟩

/-- Witness of the amended C9: a wrong first warm-up read against the read-back
`ff ff ac`. -/
theorem co2_force_recalibration_failure_code_witness :
    (co2_force_recalibration (sampleBus 0 corruptFrame) 0x62 0).1 = ESP_ERR_INVALID_RESPONSE ∧
      (co2_force_recalibration (sampleBus 36 [0xff, 0xff, 0xac]) 0x62 0).1 =
        ESP_ERR_INVALID_RESPONSE :=
  have w := co2_force_recalibration_failure_code (sampleBus 0 corruptFrame)
    (sampleBus 36 [0xff, 0xff, 0xac]) 0x62 0 0 0 (by decide)
    (fun i hi => absurd hi (Nat.not_lt_zero i)) (by decide) (sampleBus_valid 36 _)
    (by decide)
  ⟨w.1, w.2.1⟩

/-- Claim C10: for all bytes `b0`, `b1` and each of the 24 bit positions of the
frame `[b0, b1, scd41_crc8 [b0, b1]]`, the frame with that one bit inverted fails
the word check of the driver: its third byte differs from `scd41_crc8` of its
first two bytes. -/
theorem crc_detects_single_bit_flip (b0 b1 p : Nat) (h0 : b0 < 256) (h1 : b1 < 256)
    (hp : p < 24) :
    ¬ wordValid (flipBit [b0, b1, scd41_crc8 [b0, b1] 2] p) 0 ∧
      (flipBit [b0, b1, scd41_crc8 [b0, b1] 2] p).getD 2 0 ≠
        scd41_crc8 (flipBit [b0, b1, scd41_crc8 [b0, b1] 2] p) 2 := by
  have h := single_bit_flip_detected b0 b1 p h0 h1 hp
  refine ⟨?_, h⟩
  intro hv
  unfold wordValid at hv
  rw [List.drop_zero] at hv
  exact h hv.symm

/-- Witness of C10: bit 5 of the first byte of `be ef 92`. -/
theorem crc_detects_single_bit_flip_witness :
    ¬ wordValid (flipBit [0xBE, 0xEF, scd41_crc8 [0xBE, 0xEF] 2] 5) 0 ∧
      (flipBit [0xBE, 0xEF, scd41_crc8 [0xBE, 0xEF] 2] 5).getD 2 0 ≠
        scd41_crc8 (flipBit [0xBE, 0xEF, scd41_crc8 [0xBE, 0xEF] 2] 5) 2 :=
  crc_detects_single_bit_flip 0xBE 0xEF 5 (by decide) (by decide) (by decide)

end SCD41
